import Mathlib

/-!
A shallow embedding of the GPU resource registry in
`src/shader_buffer_set.rs` (crate bevy-compute), together with proofs of
the specified properties.

Modelling conventions:
* `u32` values (ids, sizes, binding indices, group indices) are `Nat`;
  the source increments `next_id` with ordinary `u32` addition, which
  aborts on overflow in debug builds, so no observable wrap-around
  behaviour is lost by using `Nat`.
* `bevy::utils::HashMap` is modelled as an association list
  (`List (key, value)`), with lookup/insert/remove/in-place-modify acting
  on the first matching key.  The code never iterates over the map, so
  iteration order is irrelevant.
* GPU-side objects are modelled by the data the registry observes about
  them: a `Buffer` is its id, size and usage flags; an `Image` asset
  handle and a GPU texture view are numeric ids.
* Typed values written into buffers are modelled by their serialized byte
  sequences (serialization by `encase` is a deterministic pure function
  of the value, and `data.clone()` serializes to the same bytes).
* Functions whose source can `panic!` (or `unwrap`) return
  `Except String` with a fixed message per panic site; the source
  interpolates the offending handle into the message, which is elided.
* Device-side effects (`Buffer::destroy`, queued buffer writes) are
  modelled as state the functions thread through explicitly: the render
  queue is a list of enqueued write commands, the image asset table is a
  list of live image ids.
-/

namespace BevyCompute

/-- Association-list lookup: the value stored at the first occurrence of
the key, mirroring `HashMap::get`. -/
def findVal {κ α : Type} [DecidableEq κ] : List (κ × α) → κ → Option α
  | [], _ => none
  | (k, v) :: rest, k2 => if k = k2 then some v else findVal rest k2

/-- Association-list insert, mirroring `HashMap::insert`: replaces the
value at an existing key, otherwise appends the new pair. -/
def insertKV {κ α : Type} [DecidableEq κ] : List (κ × α) → κ → α → List (κ × α)
  | [], k2, v2 => [(k2, v2)]
  | (k, v) :: rest, k2, v2 => if k = k2 then (k, v2) :: rest else (k, v) :: insertKV rest k2 v2

/-- Association-list removal, mirroring `HashMap::remove`: drops the
first occurrence of the key. -/
def removeKV {κ α : Type} [DecidableEq κ] : List (κ × α) → κ → List (κ × α)
  | [], _ => []
  | (k, v) :: rest, k2 => if k = k2 then rest else (k, v) :: removeKV rest k2

/-- In-place update of the value at the first occurrence of the key,
mirroring mutation through `HashMap::get_mut`. -/
def modifyVal {κ α : Type} [DecidableEq κ] : List (κ × α) → κ → (α → α) → List (κ × α)
  | [], _, _ => []
  | (k, v) :: rest, k2, f => if k = k2 then (k, f v) :: rest else (k, v) :: modifyVal rest k2 f

/-- Removal of the first occurrence of an element from a plain list,
mirroring `Vec::position` followed by `Vec::remove` in `delete_buffer`. -/
def removeFirst : List Nat → Nat → List Nat
  | [], _ => []
  | x :: rest, y => if x = y then rest else x :: removeFirst rest y

/-- `Iterator::map(f).collect()` over fallible `f`, where a failure in
the source is a panic inside the iteration. -/
def mapExcept {α β : Type} (f : α → Except String β) : List α → Except String (List β)
  | [] => Except.ok []
  | a :: rest =>
    match f a with
    | Except.error e => Except.error e
    | Except.ok b =>
      match mapExcept f rest with
      | Except.error e => Except.error e
      | Except.ok bs => Except.ok (b :: bs)

/-- `wgpu::BufferUsages` bit flags (the subset this crate mentions). -/
structure BufferUsages where
  copy_src : Bool
  copy_dst : Bool
  map_read : Bool
  map_write : Bool
  storage : Bool
  uniform : Bool
deriving DecidableEq

/-- The usage flags `BufferUsages::COPY_DST | BufferUsages::MAP_READ`
used for the CPU-mappable staging buffer in `create_copy_buffer`. -/
def copyDstMapRead : BufferUsages :=
  { copy_src := false, copy_dst := true, map_read := true,
    map_write := false, storage := false, uniform := false }

/-- A `wgpu::Buffer` as the registry observes it: identity, byte size
(`Buffer::size`), and creation usage flags. -/
structure Buffer where
  id : Nat
  size : Nat
  usage : BufferUsages
deriving DecidableEq

/-- `StorageTextureAccess` (the variants this crate uses). -/
inductive StorageTextureAccess
  | ReadOnly
  | WriteOnly
  | ReadWrite
deriving DecidableEq

/-- `enum ShaderBufferStorage`: one GPU-resident object.  Texture
formats and `Handle<Image>` asset ids are numeric. -/
inductive ShaderBufferStorage
  | Storage (buffer : Buffer) (readonly : Bool)
  | Uniform (buffer : Buffer)
  | Texture (image : Nat)
  | StorageTexture (format : Nat) (access : StorageTextureAccess) (image : Nat)
deriving DecidableEq

/-- `enum FrontBuffer`. -/
inductive FrontBuffer
  | First
  | Second
deriving DecidableEq

/-- `enum ShaderBufferInfo`: a resource slot wrapping one or two
storages.  `binding` carries `(group, binding-index)` data exactly as in
the source. -/
inductive ShaderBufferInfo
  | SingleBound (binding : Nat × Nat) (storage : ShaderBufferStorage)
  | SingleUnbound (storage : ShaderBufferStorage)
  | Double (binding : Nat × (Nat × Nat)) (front : FrontBuffer)
      (storage : ShaderBufferStorage × ShaderBufferStorage)
deriving DecidableEq

/-- `enum Binding`: the group/binding declaration passed to creation. -/
inductive Binding
  | SingleBound (group : Nat) (binding : Nat)
  | SingleUnbound
  | Double (group : Nat) (bindings : Nat × Nat)
deriving DecidableEq

/-- `enum ShaderBufferHandle` with the derived (structural) equality of
the `#[derive(Eq, PartialEq, Hash)]` of the source. -/
inductive ShaderBufferHandle
  | Bound (group : Nat) (id : Nat)
  | Unbound (id : Nat)
deriving DecidableEq

/-- The numeric id carried by a handle. -/
def handleId : ShaderBufferHandle → Nat
  | ShaderBufferHandle.Bound _ id => id
  | ShaderBufferHandle.Unbound id => id

/-- The group carried by a handle, `none` for `Unbound`. -/
def handleGroup : ShaderBufferHandle → Option Nat
  | ShaderBufferHandle.Bound group _ => some group
  | ShaderBufferHandle.Unbound _ => none

/-- A realized GPU-side image (`RenderAssets<GpuImage>` entry), observed
through its texture view id. -/
structure GpuImage where
  texture_view : Nat
deriving DecidableEq

/-- `RenderAssets<GpuImage>`: asset id to realized GPU image. -/
abbrev GpuImages : Type := List (Nat × GpuImage)

/-- A binding resource: a whole-buffer binding
(`Buffer::as_entire_binding`) or a texture view. -/
inductive BindingResource
  | bufferBinding (buffer : Buffer)
  | textureView (view : Nat)
deriving DecidableEq

/-- `wgpu::BindGroupEntry`. -/
structure BindGroupEntry where
  binding : Nat
  resource : BindingResource
deriving DecidableEq

/-- `TextureSampleType` (only `Float { filterable }` is used). -/
inductive TextureSampleType
  | float (filterable : Bool)
deriving DecidableEq

/-- `TextureViewDimension` (only `D2` is used). -/
inductive TextureViewDimension
  | d2
deriving DecidableEq

/-- `BufferBindingType`. -/
inductive BufferBindingType
  | Storage (read_only : Bool)
  | Uniform
deriving DecidableEq

/-- `wgpu::BindingType` (the variants this crate constructs). -/
inductive BindingType
  | Buffer (ty : BufferBindingType) (has_dynamic_offset : Bool) (min_binding_size : Option Nat)
  | Texture (sample_type : TextureSampleType) (view_dimension : TextureViewDimension)
      (multisampled : Bool)
  | StorageTexture (access : StorageTextureAccess) (format : Nat)
      (view_dimension : TextureViewDimension)
deriving DecidableEq

/-- `ShaderStages` (only `COMPUTE` is used). -/
inductive ShaderStages
  | COMPUTE
deriving DecidableEq

/-- `wgpu::BindGroupLayoutEntry`. -/
structure BindGroupLayoutEntry where
  binding : Nat
  visibility : ShaderStages
  ty : BindingType
  count : Option Nat
deriving DecidableEq

/-- A queued `RenderQueue::write_buffer` command. -/
structure WriteCmd where
  buffer : Nat
  offset : Nat
  bytes : List Nat
deriving DecidableEq

/-- The render queue, as the list of enqueued write commands. -/
abbrev RenderQueue : Type := List WriteCmd

/-- `Assets<Image>`: the ids of live image assets. -/
abbrev Images : Type := List Nat

/-- `ShaderBufferStorage::bind_group_entry`.  Texture variants look the
image up in `gpu_images` and `unwrap`, which panics when the image has no
realized GPU allocation. -/
def ShaderBufferStorage.bind_group_entry (st : ShaderBufferStorage) (binding : Nat)
    (gpu_images : GpuImages) : Except String BindGroupEntry :=
  match st with
  | ShaderBufferStorage.Storage buffer _ =>
    Except.ok { binding := binding, resource := BindingResource.bufferBinding buffer }
  | ShaderBufferStorage.Uniform buffer =>
    Except.ok { binding := binding, resource := BindingResource.bufferBinding buffer }
  | ShaderBufferStorage.Texture image =>
    match findVal gpu_images image with
    | some gi => Except.ok { binding := binding, resource := BindingResource.textureView gi.texture_view }
    | none => Except.error "unwrap failed: gpu image not realized"
  | ShaderBufferStorage.StorageTexture _ _ image =>
    match findVal gpu_images image with
    | some gi => Except.ok { binding := binding, resource := BindingResource.textureView gi.texture_view }
    | none => Except.error "unwrap failed: gpu image not realized"

/-- `ShaderBufferStorage::bind_group_layout_entry_binding_type`. -/
def ShaderBufferStorage.bind_group_layout_entry_binding_type (st : ShaderBufferStorage)
    (access_override : Option StorageTextureAccess) : BindingType :=
  match st with
  | ShaderBufferStorage.Storage _ readonly =>
    BindingType.Buffer (BufferBindingType.Storage readonly) false none
  | ShaderBufferStorage.Uniform _ =>
    BindingType.Buffer BufferBindingType.Uniform false none
  | ShaderBufferStorage.Texture _ =>
    BindingType.Texture (TextureSampleType.float true) TextureViewDimension.d2 false
  | ShaderBufferStorage.StorageTexture format access _ =>
    BindingType.StorageTexture (access_override.getD access) format TextureViewDimension.d2

/-- `ShaderBufferStorage::set`: serializes the value (here: its byte
sequence `data`) and enqueues `write_buffer(buffer, 0, bytes)`; panics
on texture variants. -/
def ShaderBufferStorage.set (st : ShaderBufferStorage) (data : List Nat)
    (render_queue : RenderQueue) : Except String RenderQueue :=
  match st with
  | ShaderBufferStorage.Storage buffer _ =>
    Except.ok (render_queue ++ [{ buffer := buffer.id, offset := 0, bytes := data }])
  | ShaderBufferStorage.Uniform buffer =>
    Except.ok (render_queue ++ [{ buffer := buffer.id, offset := 0, bytes := data }])
  | _ => Except.error "Tried to set data on a buffer that is not a storage or uniform buffer"

/-- `ShaderBufferStorage::delete`: `Buffer::destroy` is a device-side
effect; texture variants remove the image from the asset table. -/
def ShaderBufferStorage.delete (st : ShaderBufferStorage) (images : Images) : Images :=
  match st with
  | ShaderBufferStorage.Storage _ _ => images
  | ShaderBufferStorage.Uniform _ => images
  | ShaderBufferStorage.Texture image => images.erase image
  | ShaderBufferStorage.StorageTexture _ _ image => images.erase image

/-- `ShaderBufferStorage::image_handle`. -/
def ShaderBufferStorage.image_handle : ShaderBufferStorage → Option Nat
  | ShaderBufferStorage.Texture image => some image
  | ShaderBufferStorage.StorageTexture _ _ image => some image
  | _ => none

/-- `ShaderBufferInfo::new`: builds a slot from a binding declaration
and an `FnMut` storage generator; the mutable state of the generator is
threaded explicitly (it is called once for single slots, twice for
double ones).  Every `Double` slot starts with `front = First`. -/
def ShaderBufferInfo.new (binding : Binding) (make : Nat → ShaderBufferStorage × Nat)
    (g0 : Nat) : ShaderBufferInfo × Nat :=
  match binding with
  | Binding.SingleBound group binding =>
    let (st, g1) := make g0
    (ShaderBufferInfo.SingleBound (group, binding) st, g1)
  | Binding.SingleUnbound =>
    let (st, g1) := make g0
    (ShaderBufferInfo.SingleUnbound st, g1)
  | Binding.Double group bindings =>
    let (st1, g1) := make g0
    let (st2, g2) := make g1
    (ShaderBufferInfo.Double (group, bindings) FrontBuffer.First (st1, st2), g2)

/-- `ShaderBufferInfo::new_storage_uninit`: each generator call creates
a fresh device buffer of the requested size and usage; the
fresh-buffer-id counter of the device is the generator state. -/
def ShaderBufferInfo.new_storage_uninit (device : Nat) (size : Nat) (usage : BufferUsages)
    (binding : Binding) (readonly : Bool) : ShaderBufferInfo × Nat :=
  ShaderBufferInfo.new binding
    (fun d => (ShaderBufferStorage.Storage { id := d, size := size, usage := usage } readonly, d + 1))
    device

/-- `ShaderBufferInfo::bind_group_entries`: no entries for
`SingleUnbound`, one for `SingleBound`; for `Double`, the two storages
are swapped when `front == First` so that the non-front (back) storage
is emitted at the first binding index and the front storage at the
second. -/
def ShaderBufferInfo.bind_group_entries (info : ShaderBufferInfo) (gpu_images : GpuImages) :
    Except String (List BindGroupEntry) :=
  match info with
  | ShaderBufferInfo.SingleBound (_, binding) storage =>
    match storage.bind_group_entry binding gpu_images with
    | Except.error e => Except.error e
    | Except.ok e => Except.ok [e]
  | ShaderBufferInfo.SingleUnbound _ => Except.ok []
  | ShaderBufferInfo.Double (_, (binding1, binding2)) front (storage1, storage2) =>
    let (storage1, storage2) :=
      if front = FrontBuffer.First then (storage2, storage1) else (storage1, storage2)
    match storage1.bind_group_entry binding1 gpu_images with
    | Except.error e => Except.error e
    | Except.ok e1 =>
      match storage2.bind_group_entry binding2 gpu_images with
      | Except.error e => Except.error e
      | Except.ok e2 => Except.ok [e1, e2]

/-- `ShaderBufferInfo::bind_group_layout_entry`: mirrors
`bind_group_entries` structurally; for `Double`, the storage-texture
access of the first entry is forced to `ReadOnly` and that of the second to
`WriteOnly`. -/
def ShaderBufferInfo.bind_group_layout_entry (info : ShaderBufferInfo) :
    List BindGroupLayoutEntry :=
  match info with
  | ShaderBufferInfo.SingleBound (_, binding) storage =>
    [{ binding := binding, visibility := ShaderStages.COMPUTE,
       ty := storage.bind_group_layout_entry_binding_type none, count := none }]
  | ShaderBufferInfo.SingleUnbound _ => []
  | ShaderBufferInfo.Double (_, (binding1, binding2)) front (storage1, storage2) =>
    let (storage1, storage2) :=
      if front = FrontBuffer.First then (storage2, storage1) else (storage1, storage2)
    [{ binding := binding1, visibility := ShaderStages.COMPUTE,
       ty := storage1.bind_group_layout_entry_binding_type (some StorageTextureAccess.ReadOnly),
       count := none },
     { binding := binding2, visibility := ShaderStages.COMPUTE,
       ty := storage2.bind_group_layout_entry_binding_type (some StorageTextureAccess.WriteOnly),
       count := none }]

/-- `ShaderBufferInfo::image_handle`: single slots forward to their one
storage; double slots report the image of the front storage. -/
def ShaderBufferInfo.image_handle (info : ShaderBufferInfo) : Option Nat :=
  match info with
  | ShaderBufferInfo.SingleBound _ storage => storage.image_handle
  | ShaderBufferInfo.SingleUnbound storage => storage.image_handle
  | ShaderBufferInfo.Double _ front (storage1, storage2) =>
    (match front with
     | FrontBuffer.First => storage1
     | FrontBuffer.Second => storage2).image_handle

/-- `ShaderBufferInfo::set`: single slots write the one storage; double
slots write the same value into both storages. -/
def ShaderBufferInfo.set (info : ShaderBufferInfo) (data : List Nat)
    (render_queue : RenderQueue) : Except String RenderQueue :=
  match info with
  | ShaderBufferInfo.SingleBound _ storage => storage.set data render_queue
  | ShaderBufferInfo.SingleUnbound storage => storage.set data render_queue
  | ShaderBufferInfo.Double _ _ (storage1, storage2) =>
    match storage1.set data render_queue with
    | Except.error e => Except.error e
    | Except.ok q1 => storage2.set data q1

/-- `ShaderBufferInfo::delete`: single slots release their one storage,
double slots release both. -/
def ShaderBufferInfo.delete (info : ShaderBufferInfo) (images : Images) : Images :=
  match info with
  | ShaderBufferInfo.SingleBound _ storage => storage.delete images
  | ShaderBufferInfo.SingleUnbound storage => storage.delete images
  | ShaderBufferInfo.Double _ _ (storage1, storage2) =>
    storage2.delete (storage1.delete images)

/-- `struct ShaderBufferSet`: the registry. -/
structure ShaderBufferSet where
  buffers : List (Nat × ShaderBufferInfo)
  groups : List (List Nat)
  next_id : Nat
deriving DecidableEq

/-- `ShaderBufferSet::new`. -/
def ShaderBufferSet.new : ShaderBufferSet :=
  { buffers := [], groups := [], next_id := 0 }

/-- `ShaderBufferSet::store_buffer`: allocates the next id, stores the
slot, and for bound declarations grows the group table up to the named
group index and appends the id to the member list of that group. -/
def ShaderBufferSet.store_buffer (s : ShaderBufferSet) (binding : Binding)
    (buffer : ShaderBufferInfo) : ShaderBufferHandle × ShaderBufferSet :=
  let id := s.next_id
  let buffers2 := insertKV s.buffers id buffer
  match binding with
  | Binding.SingleBound group _ =>
    let groups1 :=
      if s.groups.length ≤ group then s.groups ++ List.replicate (group + 1 - s.groups.length) []
      else s.groups
    (ShaderBufferHandle.Bound group id,
     { buffers := buffers2, groups := groups1.set group (groups1.getD group [] ++ [id]),
       next_id := s.next_id + 1 })
  | Binding.Double group _ =>
    let groups1 :=
      if s.groups.length ≤ group then s.groups ++ List.replicate (group + 1 - s.groups.length) []
      else s.groups
    (ShaderBufferHandle.Bound group id,
     { buffers := buffers2, groups := groups1.set group (groups1.getD group [] ++ [id]),
       next_id := s.next_id + 1 })
  | Binding.SingleUnbound =>
    (ShaderBufferHandle.Unbound id,
     { buffers := buffers2, groups := s.groups, next_id := s.next_id + 1 })

/-- `ShaderBufferSet::get_buffer`: resolves a handle by its numeric id
only (both handle shapes use the same lookup). -/
def ShaderBufferSet.get_buffer (s : ShaderBufferSet) (handle : ShaderBufferHandle) :
    Option ShaderBufferInfo :=
  match handle with
  | ShaderBufferHandle.Bound _ id => findVal s.buffers id
  | ShaderBufferHandle.Unbound id => findVal s.buffers id

/-- `ShaderBufferSet::delete_buffer`: removes the slot from the id
table; for a bound handle also splices the id out of the member list of
the group of the handle (if that group exists); then releases the
storages of the slot.  An unknown handle takes the `None` branch and returns
normally. -/
def ShaderBufferSet.delete_buffer (s : ShaderBufferSet) (handle : ShaderBufferHandle)
    (images : Images) : Except String (ShaderBufferSet × Images) :=
  match handle with
  | ShaderBufferHandle.Bound group id =>
    let buffer := findVal s.buffers id
    let s2 : ShaderBufferSet :=
      { buffers := removeKV s.buffers id,
        groups :=
          match s.groups[group]? with
          | some lst => s.groups.set group (removeFirst lst id)
          | none => s.groups,
        next_id := s.next_id }
    match buffer with
    | some b => Except.ok (s2, b.delete images)
    | none => Except.ok (s2, images)
  | ShaderBufferHandle.Unbound id =>
    match findVal s.buffers id with
    | some b => Except.ok ({ s with buffers := removeKV s.buffers id }, b.delete images)
    | none => Except.ok ({ s with buffers := removeKV s.buffers id }, images)

/-- `ShaderBufferSet::image_handle`: `None` for an unknown handle. -/
def ShaderBufferSet.image_handle (s : ShaderBufferSet) (handle : ShaderBufferHandle) :
    Option Nat :=
  match s.get_buffer handle with
  | some buffer => buffer.image_handle
  | none => none

/-- `ShaderBufferSet::swap_front_buffer`: panics when the handle is
unknown or the slot is not double-buffered; otherwise toggles the
front selector of the slot in place. -/
def ShaderBufferSet.swap_front_buffer (s : ShaderBufferSet) (handle : ShaderBufferHandle) :
    Except String ShaderBufferSet :=
  match s.get_buffer handle with
  | none => Except.error "Attempted to set the front buffer of a handle that does not exist"
  | some buffer =>
    match buffer with
    | ShaderBufferInfo.Double binding front storage =>
      Except.ok
        { s with
          buffers :=
            modifyVal s.buffers (handleId handle)
              (fun _ =>
                ShaderBufferInfo.Double binding
                  (match front with
                   | FrontBuffer.First => FrontBuffer.Second
                   | FrontBuffer.Second => FrontBuffer.First)
                  storage) }
    | _ => Except.error "Attempt to set the front buffer of a handle which is not a double buffer"

/-- `ShaderBufferSet::set_buffer`: panics when the handle is unknown. -/
def ShaderBufferSet.set_buffer (s : ShaderBufferSet) (handle : ShaderBufferHandle)
    (data : List Nat) (render_queue : RenderQueue) : Except String RenderQueue :=
  match s.get_buffer handle with
  | some buffer => buffer.set data render_queue
  | none => Except.error "Tried to set data on a non-existent buffer"

/-- One materialized bind group: the combined layout and entry lists
handed to `create_bind_group` (the created GPU object is identified by
its inputs). -/
structure MaterializedBindGroup where
  layout : List BindGroupLayoutEntry
  entries : List BindGroupEntry
deriving DecidableEq

/-- The per-group body of `ShaderBufferSet::bind_groups`: gather the
member slots (an unknown id `unwrap`s, i.e. panics), build the combined
layout, and concatenate the binding entries of the members. -/
def materializeGroup (buffers : List (Nat × ShaderBufferInfo)) (ids : List Nat)
    (gpu_images : GpuImages) : Except String MaterializedBindGroup :=
  match mapExcept
      (fun id =>
        match findVal buffers id with
        | some b => Except.ok b
        | none => Except.error "unwrap failed: group member not in buffer table") ids with
  | Except.error e => Except.error e
  | Except.ok bufs =>
    match mapExcept (fun b => b.bind_group_entries gpu_images) bufs with
    | Except.error e => Except.error e
    | Except.ok entryLists =>
      Except.ok
        { layout := (bufs.map ShaderBufferInfo.bind_group_layout_entry).flatten,
          entries := entryLists.flatten }

/-- `ShaderBufferSet::bind_groups`: one materialized bind group per
group, in increasing group-index order. -/
def ShaderBufferSet.bind_groups (s : ShaderBufferSet) (gpu_images : GpuImages) :
    Except String (List MaterializedBindGroup) :=
  mapExcept (fun ids => materializeGroup s.buffers ids gpu_images) s.groups

/-- `struct ShaderBufferRenderSet`: handle-keyed staging copies. -/
structure ShaderBufferRenderSet where
  copy_buffers : List (ShaderBufferHandle × Buffer)
deriving DecidableEq

/-- The tail of `ShaderBufferRenderSet::create_copy_buffer` after the
single-slot match: the storage-buffer check, the staging allocation
through `new_storage_uninit` (a fresh CPU-mappable buffer sized like the
source; `device` is the fresh-buffer-id counter), and the let-else
shape checks of the source, which cannot fail. -/
def ShaderBufferRenderSet.create_copy_buffer_from_storage (rs : ShaderBufferRenderSet)
    (handle : ShaderBufferHandle) (storage : ShaderBufferStorage) (device : Nat) :
    Except String ShaderBufferRenderSet :=
  match storage with
  | ShaderBufferStorage.Storage src _ =>
    match ShaderBufferInfo.new_storage_uninit device src.size copyDstMapRead
        Binding.SingleUnbound false with
    | (ShaderBufferInfo.SingleUnbound (ShaderBufferStorage.Storage dst _), _) =>
      Except.ok { copy_buffers := insertKV rs.copy_buffers handle dst }
    | _ => Except.error "Tried to create a copy buffer but somehow it ended up malformed"
  | _ => Except.error "Tried to create a copy buffer for a handle which is not a storage buffer"

/-- `ShaderBufferRenderSet::create_copy_buffer` (entry checks; the tail
after the single-slot match lives in `create_copy_buffer_from_storage`):
panics when the handle already has a staging copy, is unknown, or
resolves to a double slot. -/
def ShaderBufferRenderSet.create_copy_buffer (rs : ShaderBufferRenderSet)
    (handle : ShaderBufferHandle) (buffers : ShaderBufferSet) (device : Nat) :
    Except String ShaderBufferRenderSet :=
  if (findVal rs.copy_buffers handle).isSome then
    Except.error "Tried to create a copy buffer for a handle which already has one"
  else
    match buffers.get_buffer handle with
    | none => Except.error "Tried to create a copy buffer for a handle which does not exist"
    | some src =>
      match src with
      | ShaderBufferInfo.SingleBound _ storage =>
        rs.create_copy_buffer_from_storage handle storage device
      | ShaderBufferInfo.SingleUnbound storage =>
        rs.create_copy_buffer_from_storage handle storage device
      | _ => Except.error "Tried to create a copy buffer for a handle which is a double buffer"

/-- Writing `bytes` at offset 0 over existing buffer contents. -/
def writeBytes (old : List Nat) (data : List Nat) : List Nat :=
  data ++ old.drop data.length

/-- Buffer contents by buffer id (device-side view used to interpret the
queued write commands). -/
abbrev Contents : Type := List (Nat × List Nat)

/-- Applying queued write commands (all at offset 0 in this crate) to
the device-side buffer contents, in submission order. -/
def applyWrites (cmds : List WriteCmd) (c : Contents) : Contents :=
  cmds.foldl (fun acc w => modifyVal acc w.buffer (fun old => writeBytes old w.bytes)) c

/-- One registry call in a client trace: a creation call (every
`add_*` method builds a `ShaderBufferInfo` and forwards it to
`store_buffer`, once per returned handle) or a `delete_buffer` call. -/
inductive Op
  | create (binding : Binding) (info : ShaderBufferInfo)
  | del (handle : ShaderBufferHandle)

/-- Running a trace of creation/deletion calls against the registry,
collecting the handles the creation calls return in order. -/
def ShaderBufferSet.run (s : ShaderBufferSet) (images : Images) :
    List Op → ShaderBufferSet × Images × List ShaderBufferHandle
  | [] => (s, images, [])
  | Op.create binding info :: rest =>
    let hs2 := s.store_buffer binding info
    let r := hs2.2.run images rest
    (r.1, r.2.1, hs2.1 :: r.2.2)
  | Op.del handle :: rest =>
    match s.delete_buffer handle images with
    | Except.ok si => si.1.run si.2 rest
    | Except.error _ => (s, images, [])

/-- The toggling of the front selector of a double slot performed by
`swap_front_buffer`. -/
def FrontBuffer.toggle : FrontBuffer → FrontBuffer
  | FrontBuffer.First => FrontBuffer.Second
  | FrontBuffer.Second => FrontBuffer.First

/-- The storage of the pair of a double slot currently selected as front
(the selection `image_handle` performs). -/
def frontStorage (front : FrontBuffer) (st1 st2 : ShaderBufferStorage) : ShaderBufferStorage :=
  match front with
  | FrontBuffer.First => st1
  | FrontBuffer.Second => st2

/-- The non-front (back) storage of the pair of a double slot. -/
def backStorage (front : FrontBuffer) (st1 st2 : ShaderBufferStorage) : ShaderBufferStorage :=
  match front with
  | FrontBuffer.First => st2
  | FrontBuffer.Second => st1

/-- The buffer a storage accepts typed writes into
(`ShaderBufferStorage::set` succeeds exactly on these variants). -/
def writableBuffer : ShaderBufferStorage → Option Buffer
  | ShaderBufferStorage.Storage b _ => some b
  | ShaderBufferStorage.Uniform b => some b
  | _ => none

/-- The plain storage buffer wrapped by a single (bound or unbound)
slot, `none` otherwise (the shape `create_copy_buffer` requires). -/
def singleStorageBuffer : ShaderBufferInfo → Option Buffer
  | ShaderBufferInfo.SingleBound _ (ShaderBufferStorage.Storage b _) => some b
  | ShaderBufferInfo.SingleUnbound (ShaderBufferStorage.Storage b _) => some b
  | _ => none

theorem findVal_modifyVal_self {κ α : Type} [DecidableEq κ] (m : List (κ × α)) (k : κ)
    (f : α → α) : findVal (modifyVal m k f) k = (findVal m k).map f := by
  induction m with
  | nil => rfl
  | cons p rest ih =>
    obtain ⟨k1, v1⟩ := p
    by_cases h : k1 = k <;> simp [modifyVal, findVal, h, ih]

theorem findVal_modifyVal_ne {κ α : Type} [DecidableEq κ] (m : List (κ × α)) (k k2 : κ)
    (f : α → α) (h : k2 ≠ k) : findVal (modifyVal m k f) k2 = findVal m k2 := by
  have hk : k ≠ k2 := Ne.symm h
  induction m with
  | nil => rfl
  | cons p rest ih =>
    obtain ⟨k1, v1⟩ := p
    by_cases h1 : k1 = k
    · subst h1
      simp [modifyVal, findVal, hk]
    · by_cases h2 : k1 = k2 <;> simp [modifyVal, findVal, h1, h2, h, hk, ih]

theorem modifyVal_modifyVal {κ α : Type} [DecidableEq κ] (m : List (κ × α)) (k : κ)
    (f g : α → α) : modifyVal (modifyVal m k f) k g = modifyVal m k (fun v => g (f v)) := by
  induction m with
  | nil => rfl
  | cons p rest ih =>
    obtain ⟨k1, v1⟩ := p
    by_cases h : k1 = k <;> simp [modifyVal, h, ih]

theorem modifyVal_const_self {κ α : Type} [DecidableEq κ] (m : List (κ × α)) (k : κ) (v : α)
    (h : findVal m k = some v) : modifyVal m k (fun _ => v) = m := by
  induction m with
  | nil => rfl
  | cons p rest ih =>
    obtain ⟨k1, v1⟩ := p
    by_cases h1 : k1 = k
    · simp only [findVal, if_pos h1, Option.some.injEq] at h
      simp [modifyVal, h1, h]
    · simp only [findVal, if_neg h1] at h
      simp [modifyVal, h1, ih h]

theorem findVal_insertKV_ne {κ α : Type} [DecidableEq κ] (m : List (κ × α)) (k k2 : κ)
    (v : α) (h : k2 ≠ k) : findVal (insertKV m k v) k2 = findVal m k2 := by
  have hk : k ≠ k2 := Ne.symm h
  induction m with
  | nil => simp [insertKV, findVal, hk]
  | cons p rest ih =>
    obtain ⟨k1, v1⟩ := p
    by_cases h1 : k1 = k
    · subst h1
      simp [insertKV, findVal, hk]
    · by_cases h2 : k1 = k2 <;> simp [insertKV, findVal, h1, h2, h, hk, ih]

theorem removeKV_of_findVal_none {κ α : Type} [DecidableEq κ] (m : List (κ × α)) (k : κ)
    (h : findVal m k = none) : removeKV m k = m := by
  induction m with
  | nil => rfl
  | cons p rest ih =>
    obtain ⟨k1, v1⟩ := p
    by_cases h1 : k1 = k
    · simp [findVal, h1] at h
    · simp only [findVal, if_neg h1] at h
      simp [removeKV, h1, ih h]

theorem removeFirst_of_not_mem (l : List Nat) (x : Nat) (h : x ∉ l) : removeFirst l x = l := by
  induction l with
  | nil => rfl
  | cons y rest ih =>
    simp only [List.mem_cons, not_or] at h
    have hy : y ≠ x := Ne.symm h.1
    simp [removeFirst, hy, ih h.2]

theorem removeFirst_eq_filter (l : List Nat) (x : Nat) (h : l.count x ≤ 1) :
    removeFirst l x = l.filter (fun m => m != x) := by
  induction l with
  | nil => rfl
  | cons y rest ih =>
    by_cases h1 : y = x
    · subst h1
      rw [List.count_cons_self] at h
      have hcount : rest.count y = 0 := by omega
      have hnot : y ∉ rest := by
        intro hmem
        have hp : 0 < rest.count y := List.count_pos_iff.2 hmem
        omega
      have hfil : rest.filter (fun m => m != y) = rest := by
        apply List.filter_eq_self.2
        intro a ha
        simp only [bne_iff_ne, ne_eq, decide_eq_true_eq]
        intro hax
        exact hnot (hax ▸ ha)
      simp [removeFirst, List.filter_cons, hfil]
    · have h2 : rest.count x ≤ 1 := by
        rw [List.count_cons] at h
        have hb : (y == x) = false := by simp [h1]
        rw [hb] at h
        omega
      have hbne : (y != x) = true := by simp [bne_iff_ne, h1]
      simp [removeFirst, h1, List.filter_cons, hbne, ih h2]

theorem not_mem_filter_ne_self (l : List Nat) (x : Nat) :
    x ∉ l.filter (fun m => m != x) := by
  intro h
  simp [List.mem_filter] at h

theorem getD_set_self (l : List (List Nat)) (i : Nat) (v : List Nat) (h : i < l.length) :
    (l.set i v).getD i [] = v := by
  induction l generalizing i with
  | nil => simp at h
  | cons a rest ih =>
    cases i with
    | zero => rfl
    | succ j =>
      simp only [List.length_cons, Nat.succ_lt_succ_iff] at h
      exact ih j h

theorem getD_set_ne (l : List (List Nat)) (i j : Nat) (v : List Nat) (h : j ≠ i) :
    (l.set i v).getD j [] = l.getD j [] := by
  induction l generalizing i j with
  | nil => rfl
  | cons a rest ih =>
    cases i with
    | zero =>
      cases j with
      | zero => exact absurd rfl h
      | succ j2 => rfl
    | succ i2 =>
      cases j with
      | zero => rfl
      | succ j2 => exact ih i2 j2 (fun hh => h (by rw [hh]))

theorem set_of_getElem? {α : Type} (l : List α) (i : Nat) (x : α) (h : l[i]? = some x) :
    l.set i x = l := by
  induction l generalizing i with
  | nil => simp at h
  | cons a rest ih =>
    cases i with
    | zero =>
      simp at h
      simp [h]
    | succ j =>
      simp at h
      simp [ih j h]

theorem length_set_groups (l : List (List Nat)) (i : Nat) (v : List Nat) :
    (l.set i v).length = l.length := List.length_set l i v

theorem store_buffer_handle_id (s : ShaderBufferSet) (binding : Binding)
    (info : ShaderBufferInfo) : handleId (s.store_buffer binding info).1 = s.next_id := by
  cases binding <;> rfl

theorem store_buffer_next_id (s : ShaderBufferSet) (binding : Binding)
    (info : ShaderBufferInfo) : (s.store_buffer binding info).2.next_id = s.next_id + 1 := by
  cases binding <;> rfl

theorem delete_buffer_total (s : ShaderBufferSet) (handle : ShaderBufferHandle) (im : Images) :
    ∃ s2 im2, s.delete_buffer handle im = Except.ok (s2, im2) ∧
      s2.next_id = s.next_id ∧ s2.groups.length = s.groups.length := by
  cases handle with
  | Bound g id =>
    cases hfv : findVal s.buffers id with
    | none =>
      cases hg : s.groups[g]? with
      | none =>
        exact ⟨ShaderBufferSet.mk (removeKV s.buffers id) s.groups s.next_id,
          im, by simp [ShaderBufferSet.delete_buffer, hfv, hg], rfl, rfl⟩
      | some lst =>
        exact ⟨ShaderBufferSet.mk (removeKV s.buffers id)
            (s.groups.set g (removeFirst lst id)) s.next_id,
          im, by simp [ShaderBufferSet.delete_buffer, hfv, hg], rfl, by simp [List.length_set]⟩
    | some b =>
      cases hg : s.groups[g]? with
      | none =>
        exact ⟨ShaderBufferSet.mk (removeKV s.buffers id) s.groups s.next_id,
          b.delete im, by simp [ShaderBufferSet.delete_buffer, hfv, hg], rfl, rfl⟩
      | some lst =>
        exact ⟨ShaderBufferSet.mk (removeKV s.buffers id)
            (s.groups.set g (removeFirst lst id)) s.next_id,
          b.delete im, by simp [ShaderBufferSet.delete_buffer, hfv, hg], rfl,
          by simp [List.length_set]⟩
  | Unbound id =>
    cases hfv : findVal s.buffers id with
    | none =>
      exact ⟨ShaderBufferSet.mk (removeKV s.buffers id) s.groups s.next_id,
        im, by simp [ShaderBufferSet.delete_buffer, hfv], rfl, rfl⟩
    | some b =>
      exact ⟨ShaderBufferSet.mk (removeKV s.buffers id) s.groups s.next_id,
        b.delete im, by simp [ShaderBufferSet.delete_buffer, hfv], rfl, rfl⟩

theorem run_handles_bounded_sorted (ops : List Op) : ∀ (s : ShaderBufferSet) (im : Images),
    (∀ h2 ∈ (s.run im ops).2.2, s.next_id ≤ handleId h2) ∧
      List.Pairwise (fun a b => handleId a < handleId b) (s.run im ops).2.2 := by
  induction ops with
  | nil =>
    intro s im
    simp [ShaderBufferSet.run]
  | cons op rest ih =>
    intro s im
    cases op with
    | create binding info =>
      have hid := store_buffer_handle_id s binding info
      have hnext := store_buffer_next_id s binding info
      have ihr := ih (s.store_buffer binding info).2 im
      rw [hnext] at ihr
      simp only [ShaderBufferSet.run]
      constructor
      · intro h2 hmem
        rcases List.mem_cons.1 hmem with hh | hh
        · rw [hh, hid]
        · have := ihr.1 h2 hh
          omega
      · refine List.Pairwise.cons ?_ ihr.2
        intro a ha
        have := ihr.1 a ha
        rw [hid]
        omega
    | del handle =>
      obtain ⟨s2, im2, heq, hnext, _⟩ := delete_buffer_total s handle im
      have ihr := ih s2 im2
      rw [hnext] at ihr
      simp only [ShaderBufferSet.run, heq]
      exact ihr

/-- C1: along any trace of creation calls (each `add_*` method forwards
to `store_buffer` once per returned handle) interleaved with arbitrary
`delete_buffer` calls, starting from `ShaderBufferSet::new`, the numeric
ids of the returned handles are strictly increasing in call order — the
ids come from the monotonic `next_id` counter — and in particular every
returned id is distinct from every id returned before it. -/
theorem c1_create_returns_fresh_ids (ops : List Op) :
    List.Pairwise (fun a b => handleId a < handleId b)
      (ShaderBufferSet.new.run [] ops).2.2 ∧
    List.Pairwise (fun a b => handleId a ≠ handleId b)
      (ShaderBufferSet.new.run [] ops).2.2 := by
  have h := run_handles_bounded_sorted ops ShaderBufferSet.new []
  exact ⟨h.2, h.2.imp (fun hlt => Nat.ne_of_lt hlt)⟩

/-- C2 counterexample: deleting a never-created handle from a fresh
registry does not abort — `delete_buffer` returns normally, leaving the
registry unchanged, because the `if let Some(buffer)` of the source silently
skips the release when the id-table lookup misses. -/
theorem c2_counterexample_delete_unknown_returns :
    ShaderBufferSet.new.delete_buffer (ShaderBufferHandle.Unbound 0) [] =
      Except.ok (ShaderBufferSet.new, []) := by
  rfl

/-- C2 amended: calling `delete_buffer` with a handle whose id is not in
the id table of the registry (and, for a bound handle, not in the member
list of its group) returns normally and leaves the registry and the
image assets unchanged — a silent no-op, not a fatal failure. -/
theorem c2_amended_delete_unknown_is_noop (s : ShaderBufferSet) (handle : ShaderBufferHandle)
    (im : Images) (hfv : findVal s.buffers (handleId handle) = none)
    (hgm : ∀ g id, handle = ShaderBufferHandle.Bound g id → id ∉ s.groups.getD g []) :
    s.delete_buffer handle im = Except.ok (s, im) := by
  cases handle with
  | Unbound id =>
    simp only [handleId] at hfv
    simp [ShaderBufferSet.delete_buffer, hfv, removeKV_of_findVal_none s.buffers id hfv]
  | Bound g id =>
    simp only [handleId] at hfv
    have hnm : id ∉ s.groups.getD g [] := hgm g id rfl
    have hgroups : (match s.groups[g]? with
        | some lst => s.groups.set g (removeFirst lst id)
        | none => s.groups) = s.groups := by
      cases hgl : s.groups[g]? with
      | none => rfl
      | some lst =>
        have hlst : s.groups.getD g [] = lst := by
          simp [List.getD_eq_getElem?_getD, hgl]
        show s.groups.set g (removeFirst lst id) = s.groups
        rw [removeFirst_of_not_mem lst id (hlst ▸ hnm)]
        exact set_of_getElem? s.groups g lst hgl
    simp [ShaderBufferSet.delete_buffer, hfv, hgroups,
      removeKV_of_findVal_none s.buffers id hfv]

/-- C2 amended, witness: the no-op deletion observed at a concrete
bound handle on the fresh registry. -/
theorem c2_amended_witness :
    ShaderBufferSet.new.delete_buffer (ShaderBufferHandle.Bound 0 0) [] =
      Except.ok (ShaderBufferSet.new, []) :=
  c2_amended_delete_unknown_is_noop ShaderBufferSet.new (ShaderBufferHandle.Bound 0 0) []
    (by rfl) (by intro g id hh; simp [ShaderBufferSet.new])

/-- C3 counterexample: two `Bound` handles with the same id but
different groups have equal numeric ids yet compare unequal under the
derived (structural) equality, and likewise an `Unbound` and a `Bound`
handle sharing an id compare unequal — so handle equality is not
"by id alone". -/
theorem c3_counterexample_eq_not_by_id :
    handleId (ShaderBufferHandle.Bound 0 5) = handleId (ShaderBufferHandle.Bound 1 5) ∧
      ShaderBufferHandle.Bound 0 5 ≠ ShaderBufferHandle.Bound 1 5 ∧
      handleId (ShaderBufferHandle.Unbound 5) = handleId (ShaderBufferHandle.Bound 0 5) ∧
      ShaderBufferHandle.Unbound 5 ≠ ShaderBufferHandle.Bound 0 5 := by
  decide

/-- C3 amended: the derived equality on handles is structural — two
handles compare equal if and only if they carry the same numeric id and
the same group information (both `Unbound`, or both `Bound` with equal
group indices).  Equality therefore implies id equality, but equal ids
alone do not imply handle equality. -/
theorem c3_amended_eq_iff_id_and_group (h1 h2 : ShaderBufferHandle) :
    h1 = h2 ↔ handleId h1 = handleId h2 ∧ handleGroup h1 = handleGroup h2 := by
  cases h1 <;> cases h2 <;> simp [handleId, handleGroup, and_comm]

theorem get_buffer_eq_findVal (s : ShaderBufferSet) (handle : ShaderBufferHandle) :
    s.get_buffer handle = findVal s.buffers (handleId handle) := by
  cases handle <;> rfl

theorem swap_front_buffer_eq (s : ShaderBufferSet) (handle : ShaderBufferHandle)
    (bnd : Nat × (Nat × Nat)) (front : FrontBuffer)
    (st : ShaderBufferStorage × ShaderBufferStorage)
    (hget : s.get_buffer handle = some (ShaderBufferInfo.Double bnd front st)) :
    s.swap_front_buffer handle = Except.ok (ShaderBufferSet.mk
      (modifyVal s.buffers (handleId handle)
        (fun _ => ShaderBufferInfo.Double bnd front.toggle st))
      s.groups s.next_id) := by
  unfold ShaderBufferSet.swap_front_buffer
  rw [hget]
  cases front <;> rfl

/-- C4: when a handle resolves to a `Double` slot, `swap_front_buffer`
succeeds and changes nothing but the front selector of that slot (same
binding data, same storage pair, same group table, same id counter, all
other slots untouched), and a second swap returns the registry to
exactly the original state — so `image_handle` and `bind_group_entries`
outputs after a double swap equal the pre-swap outputs. -/
theorem c4_swap_double_involution (s : ShaderBufferSet) (handle : ShaderBufferHandle)
    (bnd : Nat × (Nat × Nat)) (front : FrontBuffer)
    (st : ShaderBufferStorage × ShaderBufferStorage)
    (hfv : findVal s.buffers (handleId handle) = some (ShaderBufferInfo.Double bnd front st)) :
    ∃ s2,
      s.swap_front_buffer handle = Except.ok s2 ∧
      s2.next_id = s.next_id ∧
      s2.groups = s.groups ∧
      findVal s2.buffers (handleId handle) =
        some (ShaderBufferInfo.Double bnd front.toggle st) ∧
      (∀ k, k ≠ handleId handle → findVal s2.buffers k = findVal s.buffers k) ∧
      s2.swap_front_buffer handle = Except.ok s := by
  have hget : s.get_buffer handle = some (ShaderBufferInfo.Double bnd front st) :=
    (get_buffer_eq_findVal s handle).trans hfv
  have hfv2 : findVal
      (modifyVal s.buffers (handleId handle)
        (fun _ => ShaderBufferInfo.Double bnd front.toggle st))
      (handleId handle) = some (ShaderBufferInfo.Double bnd front.toggle st) := by
    rw [findVal_modifyVal_self, hfv]
    rfl
  refine ⟨ShaderBufferSet.mk
      (modifyVal s.buffers (handleId handle)
        (fun _ => ShaderBufferInfo.Double bnd front.toggle st))
      s.groups s.next_id,
    swap_front_buffer_eq s handle bnd front st hget, rfl, rfl, hfv2,
    fun k hk => findVal_modifyVal_ne s.buffers (handleId handle) k _ hk, ?_⟩
  have hget2 : (ShaderBufferSet.mk
      (modifyVal s.buffers (handleId handle)
        (fun _ => ShaderBufferInfo.Double bnd front.toggle st))
      s.groups s.next_id).get_buffer handle =
      some (ShaderBufferInfo.Double bnd front.toggle st) :=
    (get_buffer_eq_findVal _ handle).trans hfv2
  rw [swap_front_buffer_eq _ handle bnd front.toggle st hget2]
  have hb : modifyVal
      (modifyVal s.buffers (handleId handle)
        (fun _ => ShaderBufferInfo.Double bnd front.toggle st))
      (handleId handle)
      (fun _ => ShaderBufferInfo.Double bnd front.toggle.toggle st) = s.buffers := by
    rw [modifyVal_modifyVal]
    have htt : ShaderBufferInfo.Double bnd front.toggle.toggle st =
        ShaderBufferInfo.Double bnd front st := by
      cases front <;> rfl
    calc modifyVal s.buffers (handleId handle)
          (fun _ => ShaderBufferInfo.Double bnd front.toggle.toggle st)
        = modifyVal s.buffers (handleId handle)
          (fun _ => ShaderBufferInfo.Double bnd front st) := by rw [htt]
      _ = s.buffers := modifyVal_const_self s.buffers (handleId handle) _ hfv
  rw [hb]

/-- C4 witness: the swap contract observed on a concrete registry
holding one double-buffered texture slot. -/
theorem c4_swap_double_involution_witness :
    ∃ s2,
      (ShaderBufferSet.mk
          [(0, ShaderBufferInfo.Double (0, (0, 1)) FrontBuffer.First
            (ShaderBufferStorage.Texture 7, ShaderBufferStorage.Texture 8))]
          [[0]] 1).swap_front_buffer (ShaderBufferHandle.Bound 0 0) = Except.ok s2 ∧
      s2.next_id = 1 ∧
      s2.groups = [[0]] ∧
      findVal s2.buffers 0 =
        some (ShaderBufferInfo.Double (0, (0, 1)) FrontBuffer.First.toggle
          (ShaderBufferStorage.Texture 7, ShaderBufferStorage.Texture 8)) ∧
      (∀ k, k ≠ 0 → findVal s2.buffers k =
        findVal [(0, ShaderBufferInfo.Double (0, (0, 1)) FrontBuffer.First
          (ShaderBufferStorage.Texture 7, ShaderBufferStorage.Texture 8))] k) ∧
      s2.swap_front_buffer (ShaderBufferHandle.Bound 0 0) =
        Except.ok (ShaderBufferSet.mk
          [(0, ShaderBufferInfo.Double (0, (0, 1)) FrontBuffer.First
            (ShaderBufferStorage.Texture 7, ShaderBufferStorage.Texture 8))]
          [[0]] 1) :=
  c4_swap_double_involution _ (ShaderBufferHandle.Bound 0 0) (0, (0, 1)) FrontBuffer.First
    (ShaderBufferStorage.Texture 7, ShaderBufferStorage.Texture 8) (by rfl)

theorem bind_group_entry_binding (st : ShaderBufferStorage) (b : Nat) (gi : GpuImages)
    (e : BindGroupEntry) (h : st.bind_group_entry b gi = Except.ok e) : e.binding = b := by
  cases st with
  | Storage buf ro =>
    simp [ShaderBufferStorage.bind_group_entry] at h
    rw [← h]
  | Uniform buf =>
    simp [ShaderBufferStorage.bind_group_entry] at h
    rw [← h]
  | Texture img =>
    cases hgi : findVal gi img with
    | none => simp [ShaderBufferStorage.bind_group_entry, hgi] at h
    | some g2 =>
      simp [ShaderBufferStorage.bind_group_entry, hgi] at h
      rw [← h]
  | StorageTexture fmt acc img =>
    cases hgi : findVal gi img with
    | none => simp [ShaderBufferStorage.bind_group_entry, hgi] at h
    | some g2 =>
      simp [ShaderBufferStorage.bind_group_entry, hgi] at h
      rw [← h]

/-- C5: `bind_group_entries` yields no entries for a `SingleUnbound`
slot; exactly one entry, at the declared binding index, for a
`SingleBound` slot; and for a `Double` slot exactly two entries at the
declared index pair, the entry of the non-front (back) storage first at
the first index and the entry of the front storage second at the second index —
the assignment given as a function of the front selector, so it flips
exactly when the selector toggles. -/
theorem c5_bind_group_entries_shape (gi : GpuImages) :
    (∀ st, ShaderBufferInfo.bind_group_entries (ShaderBufferInfo.SingleUnbound st) gi =
      Except.ok []) ∧
    (∀ g b st e, ShaderBufferStorage.bind_group_entry st b gi = Except.ok e →
      ShaderBufferInfo.bind_group_entries (ShaderBufferInfo.SingleBound (g, b) st) gi =
        Except.ok [e] ∧ e.binding = b) ∧
    (∀ g b1 b2 front st1 st2 eBack eFront,
      ShaderBufferStorage.bind_group_entry (backStorage front st1 st2) b1 gi =
        Except.ok eBack →
      ShaderBufferStorage.bind_group_entry (frontStorage front st1 st2) b2 gi =
        Except.ok eFront →
      ShaderBufferInfo.bind_group_entries
          (ShaderBufferInfo.Double (g, (b1, b2)) front (st1, st2)) gi =
        Except.ok [eBack, eFront] ∧ eBack.binding = b1 ∧ eFront.binding = b2) := by
  refine ⟨fun st => rfl, ?_, ?_⟩
  · intro g b st e he
    exact ⟨by simp [ShaderBufferInfo.bind_group_entries, he],
      bind_group_entry_binding st b gi e he⟩
  · intro g b1 b2 front st1 st2 eBack eFront hBack hFront
    cases front with
    | First =>
      simp only [backStorage] at hBack
      simp only [frontStorage] at hFront
      exact ⟨by simp [ShaderBufferInfo.bind_group_entries, hBack, hFront],
        bind_group_entry_binding st2 b1 gi eBack hBack,
        bind_group_entry_binding st1 b2 gi eFront hFront⟩
    | Second =>
      simp only [backStorage] at hBack
      simp only [frontStorage] at hFront
      exact ⟨by simp [ShaderBufferInfo.bind_group_entries, hBack, hFront],
        bind_group_entry_binding st1 b1 gi eBack hBack,
        bind_group_entry_binding st2 b2 gi eFront hFront⟩

/-- C5 witness: the three slot shapes evaluated on concrete storages
(with the double slot in both selector states, showing the flip). -/
theorem c5_bind_group_entries_shape_witness :
    ShaderBufferInfo.bind_group_entries
        (ShaderBufferInfo.SingleUnbound (ShaderBufferStorage.Texture 3)) [] =
      Except.ok [] ∧
    ShaderBufferInfo.bind_group_entries
        (ShaderBufferInfo.SingleBound (0, 4)
          (ShaderBufferStorage.Uniform (Buffer.mk 9 16 copyDstMapRead))) [] =
      Except.ok [BindGroupEntry.mk 4
        (BindingResource.bufferBinding (Buffer.mk 9 16 copyDstMapRead))] ∧
    ShaderBufferInfo.bind_group_entries
        (ShaderBufferInfo.Double (0, (0, 1)) FrontBuffer.First
          (ShaderBufferStorage.Storage (Buffer.mk 1 4 copyDstMapRead) false,
           ShaderBufferStorage.Storage (Buffer.mk 2 4 copyDstMapRead) false)) [] =
      Except.ok
        [BindGroupEntry.mk 0 (BindingResource.bufferBinding (Buffer.mk 2 4 copyDstMapRead)),
         BindGroupEntry.mk 1 (BindingResource.bufferBinding (Buffer.mk 1 4 copyDstMapRead))] ∧
    ShaderBufferInfo.bind_group_entries
        (ShaderBufferInfo.Double (0, (0, 1)) FrontBuffer.Second
          (ShaderBufferStorage.Storage (Buffer.mk 1 4 copyDstMapRead) false,
           ShaderBufferStorage.Storage (Buffer.mk 2 4 copyDstMapRead) false)) [] =
      Except.ok
        [BindGroupEntry.mk 0 (BindingResource.bufferBinding (Buffer.mk 1 4 copyDstMapRead)),
         BindGroupEntry.mk 1 (BindingResource.bufferBinding (Buffer.mk 2 4 copyDstMapRead))] :=
  ⟨(c5_bind_group_entries_shape []).1 (ShaderBufferStorage.Texture 3),
   ((c5_bind_group_entries_shape []).2.1 0 4
     (ShaderBufferStorage.Uniform (Buffer.mk 9 16 copyDstMapRead)) _ (by rfl)).1,
   ((c5_bind_group_entries_shape []).2.2 0 0 1 FrontBuffer.First
     (ShaderBufferStorage.Storage (Buffer.mk 1 4 copyDstMapRead) false)
     (ShaderBufferStorage.Storage (Buffer.mk 2 4 copyDstMapRead) false)
     _ _ (by rfl) (by rfl)).1,
   ((c5_bind_group_entries_shape []).2.2 0 0 1 FrontBuffer.Second
     (ShaderBufferStorage.Storage (Buffer.mk 1 4 copyDstMapRead) false)
     (ShaderBufferStorage.Storage (Buffer.mk 2 4 copyDstMapRead) false)
     _ _ (by rfl) (by rfl)).1⟩

theorem storage_set_eq (st : ShaderBufferStorage) (b : Buffer) (data : List Nat)
    (q : RenderQueue) (h : writableBuffer st = some b) :
    st.set data q = Except.ok (q ++ [WriteCmd.mk b.id 0 data]) := by
  cases st with
  | Storage buf ro =>
    simp only [writableBuffer, Option.some.injEq] at h
    subst h
    rfl
  | Uniform buf =>
    simp only [writableBuffer, Option.some.injEq] at h
    subst h
    rfl
  | Texture img => simp [writableBuffer] at h
  | StorageTexture fmt acc img => simp [writableBuffer] at h

/-- C7: writing a serialized value to a `Double` slot whose storages are
writable (storage or uniform buffers) enqueues the same bytes into both
underlying buffers, one write per buffer in pair order; consequently, if
the two buffers held identical contents before, they hold identical
contents after the two writes are applied.  For single slots the value
is written to the one storage only. -/
theorem c7_write_same_bytes_to_both (data : List Nat) (q : RenderQueue) :
    (∀ bnd front st1 st2 b1 b2,
      writableBuffer st1 = some b1 → writableBuffer st2 = some b2 →
      ShaderBufferInfo.set (ShaderBufferInfo.Double bnd front (st1, st2)) data q =
        Except.ok (q ++ [WriteCmd.mk b1.id 0 data, WriteCmd.mk b2.id 0 data]) ∧
      (∀ (c : Contents) (bs : List Nat), b1.id ≠ b2.id →
        findVal c b1.id = some bs → findVal c b2.id = some bs →
        findVal (applyWrites [WriteCmd.mk b1.id 0 data, WriteCmd.mk b2.id 0 data] c) b1.id =
          findVal (applyWrites [WriteCmd.mk b1.id 0 data, WriteCmd.mk b2.id 0 data] c)
            b2.id)) ∧
    (∀ gb st b, writableBuffer st = some b →
      ShaderBufferInfo.set (ShaderBufferInfo.SingleBound gb st) data q =
        Except.ok (q ++ [WriteCmd.mk b.id 0 data]) ∧
      ShaderBufferInfo.set (ShaderBufferInfo.SingleUnbound st) data q =
        Except.ok (q ++ [WriteCmd.mk b.id 0 data])) := by
  constructor
  · intro bnd front st1 st2 b1 b2 h1 h2
    constructor
    · have hs1 := storage_set_eq st1 b1 data q h1
      have hs2 := storage_set_eq st2 b2 data (q ++ [WriteCmd.mk b1.id 0 data]) h2
      simp [ShaderBufferInfo.set, hs1, hs2]
    · intro c bs hne hc1 hc2
      show findVal
          (modifyVal (modifyVal c b1.id (fun old => writeBytes old data)) b2.id
            (fun old => writeBytes old data)) b1.id =
        findVal
          (modifyVal (modifyVal c b1.id (fun old => writeBytes old data)) b2.id
            (fun old => writeBytes old data)) b2.id
      rw [findVal_modifyVal_ne _ b2.id b1.id _ hne, findVal_modifyVal_self, hc1,
        findVal_modifyVal_self, findVal_modifyVal_ne _ b1.id b2.id _ (Ne.symm hne), hc2]
  · intro gb st b h
    exact ⟨by simp [ShaderBufferInfo.set, storage_set_eq st b data q h],
      by simp [ShaderBufferInfo.set, storage_set_eq st b data q h]⟩

/-- C7 witness: a double slot pairing a storage buffer with a uniform
buffer receives the same two queued writes, and the equal prior contents
of the two buffers stay equal after the writes. -/
theorem c7_write_same_bytes_to_both_witness :
    ShaderBufferInfo.set
        (ShaderBufferInfo.Double (0, (0, 1)) FrontBuffer.First
          (ShaderBufferStorage.Storage (Buffer.mk 1 8 copyDstMapRead) false,
           ShaderBufferStorage.Uniform (Buffer.mk 2 8 copyDstMapRead))) [9, 9] [] =
      Except.ok [WriteCmd.mk 1 0 [9, 9], WriteCmd.mk 2 0 [9, 9]] ∧
    findVal (applyWrites [WriteCmd.mk 1 0 [9, 9], WriteCmd.mk 2 0 [9, 9]]
        [(1, [0, 0, 0]), (2, [0, 0, 0])]) 1 =
      findVal (applyWrites [WriteCmd.mk 1 0 [9, 9], WriteCmd.mk 2 0 [9, 9]]
        [(1, [0, 0, 0]), (2, [0, 0, 0])]) 2 ∧
    ShaderBufferInfo.set
        (ShaderBufferInfo.SingleUnbound
          (ShaderBufferStorage.Storage (Buffer.mk 1 8 copyDstMapRead) false)) [9, 9] [] =
      Except.ok [WriteCmd.mk 1 0 [9, 9]] :=
  ⟨((c7_write_same_bytes_to_both [9, 9] []).1 (0, (0, 1)) FrontBuffer.First
      (ShaderBufferStorage.Storage (Buffer.mk 1 8 copyDstMapRead) false)
      (ShaderBufferStorage.Uniform (Buffer.mk 2 8 copyDstMapRead))
      (Buffer.mk 1 8 copyDstMapRead) (Buffer.mk 2 8 copyDstMapRead) (by rfl) (by rfl)).1,
   ((c7_write_same_bytes_to_both [9, 9] []).1 (0, (0, 1)) FrontBuffer.First
      (ShaderBufferStorage.Storage (Buffer.mk 1 8 copyDstMapRead) false)
      (ShaderBufferStorage.Uniform (Buffer.mk 2 8 copyDstMapRead))
      (Buffer.mk 1 8 copyDstMapRead) (Buffer.mk 2 8 copyDstMapRead) (by rfl) (by rfl)).2
      [(1, [0, 0, 0]), (2, [0, 0, 0])] [0, 0, 0] (by decide) (by rfl) (by rfl),
   ((c7_write_same_bytes_to_both [9, 9] []).2 (0, 0)
      (ShaderBufferStorage.Storage (Buffer.mk 1 8 copyDstMapRead) false)
      (Buffer.mk 1 8 copyDstMapRead) (by rfl)).2⟩

/-- C9: a `Double` slot built by `ShaderBufferInfo::new` (the common
construction path of every `add_*` call) starts with its front selector
on the first storage the generator produced; right after creation
`image_handle` reports the image of the first storage, and
`bind_group_entries` emits the entry of the second storage first at the first
declared index (the read/back side) and the entry of the first storage second
at the second declared index (the write/front side). -/
theorem c9_double_starts_front_first (g b1 b2 : Nat)
    (make : Nat → ShaderBufferStorage × Nat) (g0 : Nat)
    (st1 st2 : ShaderBufferStorage) (g1 g2 : Nat)
    (h1 : make g0 = (st1, g1)) (h2 : make g1 = (st2, g2)) :
    ShaderBufferInfo.new (Binding.Double g (b1, b2)) make g0 =
      (ShaderBufferInfo.Double (g, (b1, b2)) FrontBuffer.First (st1, st2), g2) ∧
    (ShaderBufferInfo.Double (g, (b1, b2)) FrontBuffer.First (st1, st2)).image_handle =
      st1.image_handle ∧
    (∀ gi e1 e2, ShaderBufferStorage.bind_group_entry st2 b1 gi = Except.ok e1 →
      ShaderBufferStorage.bind_group_entry st1 b2 gi = Except.ok e2 →
      (ShaderBufferInfo.Double (g, (b1, b2)) FrontBuffer.First
          (st1, st2)).bind_group_entries gi = Except.ok [e1, e2]) := by
  refine ⟨by simp [ShaderBufferInfo.new, h1, h2], rfl, ?_⟩
  intro gi e1 e2 he1 he2
  simp [ShaderBufferInfo.bind_group_entries, he1, he2]

/-- C9 witness: the initial selector state observed for a concrete
storage generator producing two distinct texture storages. -/
theorem c9_double_starts_front_first_witness :
    ShaderBufferInfo.new (Binding.Double 0 (0, 1))
        (fun d => (ShaderBufferStorage.Texture d, d + 1)) 10 =
      (ShaderBufferInfo.Double (0, (0, 1)) FrontBuffer.First
        (ShaderBufferStorage.Texture 10, ShaderBufferStorage.Texture 11), 12) ∧
    (ShaderBufferInfo.Double (0, (0, 1)) FrontBuffer.First
        (ShaderBufferStorage.Texture 10, ShaderBufferStorage.Texture 11)).image_handle =
      (ShaderBufferStorage.Texture 10).image_handle ∧
    (ShaderBufferInfo.Double (0, (0, 1)) FrontBuffer.First
        (ShaderBufferStorage.Texture 10, ShaderBufferStorage.Texture 11)).bind_group_entries
        [(10, GpuImage.mk 5), (11, GpuImage.mk 6)] =
      Except.ok [BindGroupEntry.mk 0 (BindingResource.textureView 6),
        BindGroupEntry.mk 1 (BindingResource.textureView 5)] := by
  have h := c9_double_starts_front_first 0 0 1
    (fun d => (ShaderBufferStorage.Texture d, d + 1)) 10
    (ShaderBufferStorage.Texture 10) (ShaderBufferStorage.Texture 11) 11 12 (by rfl) (by rfl)
  exact ⟨h.1, h.2.1, h.2.2 [(10, GpuImage.mk 5), (11, GpuImage.mk 6)]
    (BindGroupEntry.mk 0 (BindingResource.textureView 6))
    (BindGroupEntry.mk 1 (BindingResource.textureView 5)) (by rfl) (by rfl)⟩

theorem mapExcept_congr {α β : Type} (f g : α → Except String β) (l : List α)
    (h : ∀ a ∈ l, f a = g a) : mapExcept f l = mapExcept g l := by
  induction l with
  | nil => rfl
  | cons a rest ih =>
    simp only [mapExcept, h a (List.mem_cons_self a rest),
      ih (fun x hx => h x (List.mem_cons_of_mem a hx))]

theorem materializeGroup_insert_irrelevant (buffers : List (Nat × ShaderBufferInfo))
    (ids : List Nat) (gi : GpuImages) (id : Nat) (info : ShaderBufferInfo)
    (hnm : id ∉ ids) :
    materializeGroup (insertKV buffers id info) ids gi = materializeGroup buffers ids gi := by
  have hcong : mapExcept
      (fun i =>
        match findVal (insertKV buffers id info) i with
        | some b => Except.ok b
        | none => Except.error "unwrap failed: group member not in buffer table") ids =
    mapExcept
      (fun i =>
        match findVal buffers i with
        | some b => Except.ok b
        | none => Except.error "unwrap failed: group member not in buffer table") ids := by
    apply mapExcept_congr
    intro a ha
    rw [findVal_insertKV_ne buffers id a info (fun hh => hnm (hh ▸ ha))]
  unfold materializeGroup
  rw [hcong]

/-- C6: deleting a bound handle splices its id out of the member list of
its group — the new member list is the old one with the id
filtered out, keeping the remaining members in their original relative
order, and every other group is untouched — so the deleted id is absent
from the member list of that group and a subsequent materialization of that
group is independent of any entry stored under the deleted id (it never
references it). -/
theorem c6_delete_removes_id_from_group (s : ShaderBufferSet) (g id : Nat) (im : Images)
    (hlen : g < s.groups.length) (hcount : (s.groups.getD g []).count id ≤ 1) :
    ∃ s2 im2,
      s.delete_buffer (ShaderBufferHandle.Bound g id) im = Except.ok (s2, im2) ∧
      s2.groups.getD g [] = (s.groups.getD g []).filter (fun m => m != id) ∧
      (∀ g2, g2 ≠ g → s2.groups.getD g2 [] = s.groups.getD g2 []) ∧
      id ∉ s2.groups.getD g [] ∧
      (∀ info gi,
        materializeGroup (insertKV s2.buffers id info) (s2.groups.getD g []) gi =
          materializeGroup s2.buffers (s2.groups.getD g []) gi) := by
  have hgd : s.groups.getD g [] = s.groups[g] := by
    rw [List.getD_eq_getElem?_getD, List.getElem?_eq_getElem hlen]
    rfl
  have hgl : s.groups[g]? = some s.groups[g] := List.getElem?_eq_getElem hlen
  have hmain : ∀ (buffers2 : List (Nat × ShaderBufferInfo)),
      (ShaderBufferSet.mk buffers2
          (s.groups.set g (removeFirst (s.groups.getD g []) id)) s.next_id).groups.getD g [] =
        (s.groups.getD g []).filter (fun m => m != id) ∧
      (∀ g2, g2 ≠ g →
        (ShaderBufferSet.mk buffers2
            (s.groups.set g (removeFirst (s.groups.getD g []) id)) s.next_id).groups.getD
          g2 [] = s.groups.getD g2 []) ∧
      id ∉ (ShaderBufferSet.mk buffers2
          (s.groups.set g (removeFirst (s.groups.getD g []) id)) s.next_id).groups.getD
        g [] := by
    intro buffers2
    have hself : (s.groups.set g (removeFirst (s.groups.getD g []) id)).getD g [] =
        (s.groups.getD g []).filter (fun m => m != id) := by
      rw [getD_set_self _ _ _ hlen]
      exact removeFirst_eq_filter _ id hcount
    refine ⟨hself, fun g2 hg2 => getD_set_ne _ _ _ _ hg2, ?_⟩
    rw [hself]
    exact not_mem_filter_ne_self _ id
  cases hfv : findVal s.buffers id with
  | none =>
    refine ⟨ShaderBufferSet.mk (removeKV s.buffers id)
        (s.groups.set g (removeFirst (s.groups.getD g []) id)) s.next_id, im, ?_, ?_⟩
    · simp [ShaderBufferSet.delete_buffer, hfv, hgl, hgd]
    · obtain ⟨ha, hb, hc⟩ := hmain (removeKV s.buffers id)
      exact ⟨ha, hb, hc, fun info gi => materializeGroup_insert_irrelevant _ _ gi id info
        (by rw [ha]; exact not_mem_filter_ne_self _ id)⟩
  | some b =>
    refine ⟨ShaderBufferSet.mk (removeKV s.buffers id)
        (s.groups.set g (removeFirst (s.groups.getD g []) id)) s.next_id, b.delete im, ?_, ?_⟩
    · simp [ShaderBufferSet.delete_buffer, hfv, hgl, hgd]
    · obtain ⟨ha, hb, hc⟩ := hmain (removeKV s.buffers id)
      exact ⟨ha, hb, hc, fun info gi => materializeGroup_insert_irrelevant _ _ gi id info
        (by rw [ha]; exact not_mem_filter_ne_self _ id)⟩

/-- C6 witness: deleting the middle member of a three-member group on a
concrete registry. -/
theorem c6_delete_removes_id_from_group_witness :
    ∃ s2 im2,
      (ShaderBufferSet.mk
          [(0, ShaderBufferInfo.SingleBound (0, 0)
             (ShaderBufferStorage.Uniform (Buffer.mk 10 4 copyDstMapRead))),
           (1, ShaderBufferInfo.SingleBound (0, 1)
             (ShaderBufferStorage.Uniform (Buffer.mk 11 4 copyDstMapRead))),
           (2, ShaderBufferInfo.SingleBound (0, 2)
             (ShaderBufferStorage.Uniform (Buffer.mk 12 4 copyDstMapRead)))]
          [[0, 1, 2]] 3).delete_buffer (ShaderBufferHandle.Bound 0 1) [] =
        Except.ok (s2, im2) ∧
      s2.groups.getD 0 [] = [0, 1, 2].filter (fun m => m != 1) ∧
      (∀ g2, g2 ≠ 0 → s2.groups.getD g2 [] = ([[0, 1, 2]] : List (List Nat)).getD g2 []) ∧
      1 ∉ s2.groups.getD 0 [] ∧
      (∀ info gi,
        materializeGroup (insertKV s2.buffers 1 info) (s2.groups.getD 0 []) gi =
          materializeGroup s2.buffers (s2.groups.getD 0 []) gi) :=
  c6_delete_removes_id_from_group
    (ShaderBufferSet.mk
      [(0, ShaderBufferInfo.SingleBound (0, 0)
         (ShaderBufferStorage.Uniform (Buffer.mk 10 4 copyDstMapRead))),
       (1, ShaderBufferInfo.SingleBound (0, 1)
         (ShaderBufferStorage.Uniform (Buffer.mk 11 4 copyDstMapRead))),
       (2, ShaderBufferInfo.SingleBound (0, 2)
         (ShaderBufferStorage.Uniform (Buffer.mk 12 4 copyDstMapRead)))]
      [[0, 1, 2]] 3) 0 1 [] (by decide) (by decide)

/-- C8: `create_copy_buffer` succeeds exactly when the handle has no
staging copy yet, is known to the buffer set, and resolves to a single
slot backed by a plain storage buffer (so it fails fatally exactly on a
duplicate staging request, an unknown handle, a double-buffered slot, or
a non-storage-buffer resource); on success it records, keyed by the
handle, a freshly allocated CPU-mappable (`COPY_DST | MAP_READ`) buffer
whose size equals the size of the source buffer. -/
theorem singleStorageBuffer_none_contra (x info : ShaderBufferInfo) (b : Buffer)
    (hx : singleStorageBuffer x = none)
    (hinfo : some x = some info) (hsb : singleStorageBuffer info = some b) : False := by
  have heq : x = info := by injection hinfo
  rw [← heq, hx] at hsb
  cases hsb

theorem c8_create_copy_buffer_spec (rs : ShaderBufferRenderSet)
    (handle : ShaderBufferHandle) (bs : ShaderBufferSet) (device : Nat) :
    ((rs.create_copy_buffer handle bs device).isOk = true ↔
      (findVal rs.copy_buffers handle = none ∧
        ∃ info b, bs.get_buffer handle = some info ∧ singleStorageBuffer info = some b)) ∧
    (∀ info b, findVal rs.copy_buffers handle = none →
      bs.get_buffer handle = some info → singleStorageBuffer info = some b →
      rs.create_copy_buffer handle bs device =
        Except.ok (ShaderBufferRenderSet.mk
          (insertKV rs.copy_buffers handle (Buffer.mk device b.size copyDstMapRead)))) := by
  cases hst : findVal rs.copy_buffers handle with
  | some buf =>
    have herr : rs.create_copy_buffer handle bs device =
        Except.error "Tried to create a copy buffer for a handle which already has one" := by
      unfold ShaderBufferRenderSet.create_copy_buffer
      rw [hst]
      rfl
    refine ⟨⟨fun hok => ?_, fun hrhs => absurd hrhs.1 (by simp)⟩,
      fun info b hnone => absurd hnone (by simp)⟩
    rw [herr] at hok
    exact absurd hok (by decide)
  | none =>
    cases hgb : bs.get_buffer handle with
    | none =>
      have herr : rs.create_copy_buffer handle bs device =
          Except.error "Tried to create a copy buffer for a handle which does not exist" := by
        unfold ShaderBufferRenderSet.create_copy_buffer
        rw [hst, hgb]
        rfl
      refine ⟨⟨fun hok => ?_, fun hrhs => ?_⟩,
        fun info b _ hinfo _ => absurd hinfo (by simp)⟩
      · rw [herr] at hok
        exact absurd hok (by decide)
      · obtain ⟨-, info, b, hinfo, -⟩ := hrhs
        exact absurd hinfo (by simp)
    | some info0 =>
      by_cases hsmatch : ∃ bsrc, singleStorageBuffer info0 = some bsrc
      · obtain ⟨bsrc, hss⟩ := hsmatch
        have hok2 : rs.create_copy_buffer handle bs device =
            Except.ok (ShaderBufferRenderSet.mk
              (insertKV rs.copy_buffers handle
                (Buffer.mk device bsrc.size copyDstMapRead))) := by
          unfold ShaderBufferRenderSet.create_copy_buffer
          rw [hst, hgb]
          cases info0 with
          | SingleBound bnd st =>
            cases st with
            | Storage bx rx =>
              simp only [singleStorageBuffer, Option.some.injEq] at hss
              rw [← hss]
              rfl
            | Uniform bx => simp [singleStorageBuffer] at hss
            | Texture ix => simp [singleStorageBuffer] at hss
            | StorageTexture fx ax ix => simp [singleStorageBuffer] at hss
          | SingleUnbound st =>
            cases st with
            | Storage bx rx =>
              simp only [singleStorageBuffer, Option.some.injEq] at hss
              rw [← hss]
              rfl
            | Uniform bx => simp [singleStorageBuffer] at hss
            | Texture ix => simp [singleStorageBuffer] at hss
            | StorageTexture fx ax ix => simp [singleStorageBuffer] at hss
          | Double bnd front stp => simp [singleStorageBuffer] at hss
        refine ⟨⟨fun _ => ⟨rfl, info0, bsrc, rfl, hss⟩, fun _ => by rw [hok2]; rfl⟩,
          fun info b _ hinfo hsb => ?_⟩
        have heq : info0 = info := by injection hinfo
        rw [← heq] at hsb
        rw [hss] at hsb
        have hbb : bsrc = b := by injection hsb
        rw [hok2, hbb]
      · have hnone0 : singleStorageBuffer info0 = none := by
          cases hh : singleStorageBuffer info0 with
          | none => rfl
          | some bx => exact absurd ⟨bx, hh⟩ hsmatch
        have herr : ∃ msg, rs.create_copy_buffer handle bs device = Except.error msg := by
          unfold ShaderBufferRenderSet.create_copy_buffer
          rw [hst, hgb]
          cases info0 with
          | SingleBound bnd st =>
            cases st with
            | Storage bx rx => simp [singleStorageBuffer] at hnone0
            | Uniform bx => exact ⟨_, rfl⟩
            | Texture ix => exact ⟨_, rfl⟩
            | StorageTexture fx ax ix => exact ⟨_, rfl⟩
          | SingleUnbound st =>
            cases st with
            | Storage bx rx => simp [singleStorageBuffer] at hnone0
            | Uniform bx => exact ⟨_, rfl⟩
            | Texture ix => exact ⟨_, rfl⟩
            | StorageTexture fx ax ix => exact ⟨_, rfl⟩
          | Double bnd front stp => exact ⟨_, rfl⟩
        obtain ⟨msg, herr⟩ := herr
        refine ⟨⟨fun hok => ?_, fun hrhs => ?_⟩, fun info b _ hinfo hsb =>
          (singleStorageBuffer_none_contra info0 info b hnone0 hinfo hsb).elim⟩
        · rw [herr] at hok
          exact absurd hok (by simp [Except.isOk, Except.toBool])
        · obtain ⟨-, info, b, hinfo, hsb⟩ := hrhs
          exact (singleStorageBuffer_none_contra info0 info b hnone0 hinfo hsb).elim

/-- C8 witness: staging a concrete unbound storage-buffer slot succeeds
and records a size-matched CPU-mappable staging buffer under the
handle. -/
theorem c8_create_copy_buffer_spec_witness :
    (ShaderBufferRenderSet.mk []).create_copy_buffer (ShaderBufferHandle.Unbound 0)
        (ShaderBufferSet.mk
          [(0, ShaderBufferInfo.SingleUnbound
            (ShaderBufferStorage.Storage (Buffer.mk 5 64 copyDstMapRead) false))] [] 1) 77 =
      Except.ok (ShaderBufferRenderSet.mk
        (insertKV [] (ShaderBufferHandle.Unbound 0) (Buffer.mk 77 64 copyDstMapRead))) :=
  (c8_create_copy_buffer_spec (ShaderBufferRenderSet.mk []) (ShaderBufferHandle.Unbound 0)
      (ShaderBufferSet.mk
        [(0, ShaderBufferInfo.SingleUnbound
          (ShaderBufferStorage.Storage (Buffer.mk 5 64 copyDstMapRead) false))] [] 1) 77).2
    (ShaderBufferInfo.SingleUnbound
      (ShaderBufferStorage.Storage (Buffer.mk 5 64 copyDstMapRead) false))
    (Buffer.mk 5 64 copyDstMapRead) (by rfl) (by rfl) (by rfl)

/-- C10: every registry lookup resolves a handle through its numeric id
only — `get_buffer`, `image_handle`, `swap_front_buffer` and
`set_buffer` give identical results for a `Bound` handle (whatever group
index it carries) and an `Unbound` handle with the same id, and
`get_buffer` is exactly the id-table lookup. -/
theorem c10_resolution_uses_id_only (s : ShaderBufferSet) (g id : Nat) (data : List Nat)
    (q : RenderQueue) :
    s.get_buffer (ShaderBufferHandle.Bound g id) =
        s.get_buffer (ShaderBufferHandle.Unbound id) ∧
      s.get_buffer (ShaderBufferHandle.Bound g id) = findVal s.buffers id ∧
      s.image_handle (ShaderBufferHandle.Bound g id) =
        s.image_handle (ShaderBufferHandle.Unbound id) ∧
      s.swap_front_buffer (ShaderBufferHandle.Bound g id) =
        s.swap_front_buffer (ShaderBufferHandle.Unbound id) ∧
      s.set_buffer (ShaderBufferHandle.Bound g id) data q =
        s.set_buffer (ShaderBufferHandle.Unbound id) data q :=
  ⟨rfl, rfl, rfl, rfl, rfl⟩

end BevyCompute
